import Mathlib

/-!
Shallow embedding of the Region Capture & Stitching Engine of the
chrome-element-screenshot extension.

JS numbers are modelled as rationals (ℚ); the literal `0.8` of the source is
modelled as `4/5` and `1.5` as `3/2` (at every input appearing in the claims
the double computation is exact and agrees with the rational one).  DOM
rasters are modelled by their decoded pixel dimensions, and canvas
compositing by the list of `drawImage` calls issued.
-/

set_option maxRecDepth 100000
set_option maxHeartbeats 4000000

namespace ChromeShot

/-- `DOMRect` as produced/consumed by the source (all eight numeric fields). -/
structure DOMRect where
  x : ℚ
  y : ℚ
  width : ℚ
  height : ℚ
  top : ℚ
  right : ℚ
  bottom : ℚ
  left : ℚ
  deriving Repr, DecidableEq

/-- Build a consistent `DOMRect` from left/top/width/height. -/
def mkRect (l t w h : ℚ) : DOMRect :=
  { x := l, y := t, width := w, height := h
    top := t, right := l + w, bottom := t + h, left := l }

/-- `DOMMatrix` restricted to the 2D affine components `a b c d e f` that the
source reads. -/
structure DOMMatrix where
  a : ℚ
  b : ℚ
  c : ℚ
  d : ℚ
  e : ℚ
  f : ℚ
  deriving Repr, DecidableEq

/-- `matrix.transformPoint(point)` of the source, on 2D points. -/
def DOMMatrix.transformPoint (m : DOMMatrix) (p : ℚ × ℚ) : ℚ × ℚ :=
  (m.a * p.1 + m.c * p.2 + m.e, m.b * p.1 + m.d * p.2 + m.f)

/-- A decoded raster (what `loadImage` resolves to), reduced to its pixel
dimensions. -/
structure Image where
  width : ℚ
  height : ℚ
  deriving Repr, DecidableEq

/-- `ScrollPosition` from src/types/index.ts. -/
structure ScrollPosition where
  x : ℚ
  y : ℚ
  isComplete : Bool
  deriving Repr, DecidableEq

/-- One parsed shadow of a CSS `box-shadow`/`text-shadow` list: the numeric
values the source extracts with `parseFloat` from the tokens
`offset-x offset-y blur-radius spread-radius` (a missing token parses to 0). -/
structure ShadowSpec where
  offsetX : ℚ
  offsetY : ℚ
  blurRadius : ℚ
  spreadRadius : ℚ
  deriving Repr, DecidableEq

/-- `ShadowInfo` from src/types/index.ts (the raw CSS strings carry no
geometry beyond their parse and are omitted). -/
structure ShadowInfo where
  shadowBounds : DOMRect
  deriving Repr, DecidableEq

/-- `IframeInfo` from src/types/index.ts; `relativePosition {x,y}` is
flattened into two fields. -/
structure IframeInfo where
  iframeBounds : DOMRect
  relativePositionX : ℚ
  relativePositionY : ℚ
  deriving Repr, DecidableEq

/-- `ElementInfo` from src/types/index.ts (the `selector` and
`computedStyles` fields carry no geometry and are omitted). -/
structure ElementInfo where
  boundingRect : DOMRect
  isScrollable : Bool
  totalHeight : ℚ
  visibleHeight : ℚ
  hasTransform : Bool
  transformMatrix : Option DOMMatrix
  hasShadow : Bool
  shadowInfo : Option ShadowInfo
  isInIframe : Bool
  iframeInfo : Option IframeInfo
  isFixed : Bool
  zIndex : ℤ
  deriving Repr, DecidableEq

/-- `LongScreenshotSegment` from src/types/index.ts (`dataUrl` is modelled by
the decoded image it denotes). -/
structure LongScreenshotSegment where
  dataUrl : Image
  scrollPosition : ScrollPosition
  segmentIndex : ℕ
  elementRect : DOMRect
  deriving Repr, DecidableEq

/-- `CropArea` from src/utils/screenshotProcessor.ts. -/
structure CropArea where
  x : ℚ
  y : ℚ
  width : ℚ
  height : ℚ
  deriving Repr, DecidableEq

/-- One `ctx.drawImage(img, srcX, srcY, srcW, srcH, dstX, dstY, dstW, dstH)`
call, together with the transform installed on the context (set only by
`handleTransformedElement`). -/
structure DrawOp where
  srcX : ℚ
  srcY : ℚ
  srcW : ℚ
  srcH : ℚ
  dstX : ℚ
  dstY : ℚ
  dstW : ℚ
  dstH : ℚ
  ctxTransform : Option DOMMatrix
  deriving Repr, DecidableEq

/-- The observable outcome of a canvas pipeline: the allocated canvas
dimensions and the drawImage calls issued onto it. -/
structure CanvasResult where
  width : ℚ
  height : ℚ
  draws : List DrawOp
  deriving Repr, DecidableEq

namespace ScreenshotProcessor

/-- Loop body of `ScreenshotProcessor.calculateScrollSegments`
(src/utils/screenshotProcessor.ts:415-435).  The fuel argument only bounds
the recursion: the source loop executes its body at most 51 times (the
safety-limit break fires once `segments.length > 50`), so fuel 52 is never
exhausted and the recursion is an exact simulation of the `while` loop. -/
def scrollSegsAux (segmentHeight totalScrollHeight : ℚ) :
    ℕ → ℚ → List ScrollPosition → List ScrollPosition
  | 0, _, acc => acc
  | fuel + 1, currentScrollTop, acc =>
    if currentScrollTop ≤ totalScrollHeight then
      let acc := acc ++
        [{ x := 0, y := currentScrollTop
           isComplete := if totalScrollHeight ≤ currentScrollTop then true else false }]
      if totalScrollHeight ≤ currentScrollTop then acc
      else if 50 < acc.length then acc
      else scrollSegsAux segmentHeight totalScrollHeight fuel
        (currentScrollTop + segmentHeight) acc
    else acc

/-- `ScreenshotProcessor.calculateScrollSegments`
(src/utils/screenshotProcessor.ts:404-438).  The source overlap factor `0.8`
is the rational 4/5. -/
def calculateScrollSegments (elementInfo : ElementInfo) : List ScrollPosition :=
  if ¬ elementInfo.isScrollable ∨ elementInfo.totalHeight ≤ elementInfo.visibleHeight then
    [{ x := 0, y := 0, isComplete := true }]
  else
    scrollSegsAux (elementInfo.visibleHeight * (4 / 5))
      (elementInfo.totalHeight - elementInfo.visibleHeight) 52 0 []

/-- The scroll position the planner loop pushes at scroll top `y` against
scrollable extent `T` (abbreviation for stating loop invariants). -/
def pushedPos (T y : ℚ) : ScrollPosition :=
  { x := 0, y := y, isComplete := if T ≤ y then true else false }

/-- `ScreenshotProcessor.adjustCropArea`
(src/utils/screenshotProcessor.ts:208-228). -/
def adjustCropArea (cropArea : CropArea) (imageWidth imageHeight : ℚ) : CropArea :=
  let ax := max 0 (min cropArea.x (imageWidth - 1))
  let ay := max 0 (min cropArea.y (imageHeight - 1))
  let aw := min cropArea.width (imageWidth - ax)
  let ah := min cropArea.height (imageHeight - ay)
  { x := ax, y := ay, width := max 1 aw, height := max 1 ah }

/-- `ScreenshotProcessor.calculateOverlapHeight`
(src/utils/screenshotProcessor.ts:483-501), expressed on the two segments the
source reads at `segments[currentIndex]` and `segments[currentIndex - 1]`;
the `currentIndex === 0 → 0` early return corresponds to the `i > 0` guard at
the sole call site. -/
def calculateOverlapHeight (currentSegment previousSegment : LongScreenshotSegment)
    (devicePixelRatio : ℚ) : ℚ :=
  let scrollDiff := currentSegment.scrollPosition.y - previousSegment.scrollPosition.y
  let segmentHeight := currentSegment.elementRect.height
  max 0 (segmentHeight - scrollDiff) * devicePixelRatio

/-- `ScreenshotProcessor.calculateTransformedBounds`
(src/utils/screenshotProcessor.ts:548-592). -/
def calculateTransformedBounds (bounds : DOMRect) (matrix : DOMMatrix) : DOMRect :=
  let p1 := matrix.transformPoint (bounds.left, bounds.top)
  let p2 := matrix.transformPoint (bounds.right, bounds.top)
  let p3 := matrix.transformPoint (bounds.right, bounds.bottom)
  let p4 := matrix.transformPoint (bounds.left, bounds.bottom)
  let minX := min (min p1.1 p2.1) (min p3.1 p4.1)
  let maxX := max (max p1.1 p2.1) (max p3.1 p4.1)
  let minY := min (min p1.2 p2.2) (min p3.2 p4.2)
  let maxY := max (max p1.2 p2.2) (max p3.2 p4.2)
  { x := minX, y := minY, width := maxX - minX, height := maxY - minY
    top := minY, right := maxX, bottom := maxY, left := minX }

/-- `ScreenshotProcessor.calculateComplexElementCropArea`
(src/utils/screenshotProcessor.ts:506-543). -/
def calculateComplexElementCropArea (elementInfo : ElementInfo)
    (devicePixelRatio : ℚ) : CropArea :=
  let bounds := elementInfo.boundingRect
  let bounds :=
    if elementInfo.hasShadow then
      match elementInfo.shadowInfo with
      | some si => si.shadowBounds
      | none => bounds
    else bounds
  let bounds :=
    if elementInfo.isInIframe then
      match elementInfo.iframeInfo with
      | some ii =>
        { bounds with
          x := ii.iframeBounds.x + ii.relativePositionX
          y := ii.iframeBounds.y + ii.relativePositionY
          left := ii.iframeBounds.left + ii.relativePositionX
          top := ii.iframeBounds.top + ii.relativePositionY
          right := ii.iframeBounds.left + ii.relativePositionX + bounds.width
          bottom := ii.iframeBounds.top + ii.relativePositionY + bounds.height }
      | none => bounds
    else bounds
  let bounds :=
    if elementInfo.hasTransform then
      match elementInfo.transformMatrix with
      | some m => calculateTransformedBounds bounds m
      | none => bounds
    else bounds
  { x := bounds.left * devicePixelRatio
    y := bounds.top * devicePixelRatio
    width := bounds.width * devicePixelRatio
    height := bounds.height * devicePixelRatio }

/-- The context transform installed by `renderComplexElement`
(src/utils/screenshotProcessor.ts:597-678): only the
`handleTransformedElement` branch (not fixed, has transform) calls
`ctx.setTransform`; every branch issues the same `drawImage` arguments. -/
def cropDrawTransform (elementInfo : ElementInfo) : Option DOMMatrix :=
  if elementInfo.hasTransform ∨ elementInfo.hasShadow ∨ elementInfo.isFixed then
    if elementInfo.isFixed then none
    else if elementInfo.hasTransform then elementInfo.transformMatrix
    else none
  else none

/-- `ScreenshotProcessor.cropToElement`
(src/utils/screenshotProcessor.ts:41-84): canvas sized to the adjusted crop
area, one drawImage of that area to the origin. -/
def cropToElement (screenshot : Image) (elementInfo : ElementInfo)
    (devicePixelRatio : ℚ) : CanvasResult :=
  let cropArea := calculateComplexElementCropArea elementInfo devicePixelRatio
  let adjustedCropArea := adjustCropArea cropArea screenshot.width screenshot.height
  { width := adjustedCropArea.width
    height := adjustedCropArea.height
    draws := [{ srcX := adjustedCropArea.x, srcY := adjustedCropArea.y
                srcW := adjustedCropArea.width, srcH := adjustedCropArea.height
                dstX := 0, dstY := 0
                dstW := adjustedCropArea.width, dstH := adjustedCropArea.height
                ctxTransform := cropDrawTransform elementInfo }] }

/-- One iteration of the stitching loop of
`ScreenshotProcessor.stitchScreenshotSegments`
(src/utils/screenshotProcessor.ts:357-391): `prev = none` is the `i = 0`
case.  Returns the drawImage call issued and the updated `currentY`. -/
def segmentDraw (elementWidth devicePixelRatio : ℚ) (segment : LongScreenshotSegment)
    (prev : Option LongScreenshotSegment) (currentY : ℚ) : DrawOp × ℚ :=
  let img := segment.dataUrl
  let cropArea : CropArea :=
    { x := segment.elementRect.left * devicePixelRatio
      y := segment.elementRect.top * devicePixelRatio
      width := elementWidth
      height := segment.elementRect.height * devicePixelRatio }
  let adjustedCropArea := adjustCropArea cropArea img.width img.height
  match prev with
  | none =>
    ({ srcX := adjustedCropArea.x, srcY := adjustedCropArea.y
       srcW := adjustedCropArea.width, srcH := adjustedCropArea.height
       dstX := 0, dstY := currentY
       dstW := elementWidth, dstH := adjustedCropArea.height
       ctxTransform := none },
     currentY + adjustedCropArea.height)
  | some previousSegment =>
    let overlapHeight := calculateOverlapHeight segment previousSegment devicePixelRatio
    let segmentHeight := adjustedCropArea.height - overlapHeight
    ({ srcX := adjustedCropArea.x, srcY := adjustedCropArea.y + overlapHeight
       srcW := adjustedCropArea.width, srcH := segmentHeight
       dstX := 0, dstY := currentY
       dstW := elementWidth, dstH := segmentHeight
       ctxTransform := none },
     currentY + segmentHeight)

/-- The `for` loop of `stitchScreenshotSegments`, threading the previous
segment and `currentY`. -/
def stitchLoopGo (elementWidth devicePixelRatio : ℚ) :
    Option LongScreenshotSegment → List LongScreenshotSegment → ℚ →
    List DrawOp × ℚ
  | _, [], currentY => ([], currentY)
  | prev, segment :: rest, currentY =>
    let step := segmentDraw elementWidth devicePixelRatio segment prev currentY
    let tail := stitchLoopGo elementWidth devicePixelRatio (some segment) rest step.2
    (step.1 :: tail.1, tail.2)

/-- `ScreenshotProcessor.stitchScreenshotSegments`
(src/utils/screenshotProcessor.ts:324-399).  Zero segments throw; one
segment delegates to `cropToElement`; otherwise a canvas of
`boundingRect.width × totalHeight` scaled by the device pixel ratio is
allocated and each segment is drawn at the running `currentY`. -/
def stitchScreenshotSegments (segments : List LongScreenshotSegment)
    (elementInfo : ElementInfo) (devicePixelRatio : ℚ) :
    Except String CanvasResult :=
  match segments with
  | [] => .error "No segments to stitch"
  | [s] => .ok (cropToElement s.dataUrl elementInfo devicePixelRatio)
  | s :: rest =>
    let elementWidth := elementInfo.boundingRect.width * devicePixelRatio
    let totalHeight := elementInfo.totalHeight * devicePixelRatio
    let loopOut := stitchLoopGo elementWidth devicePixelRatio none (s :: rest) 0
    .ok { width := elementWidth, height := totalHeight, draws := loopOut.1 }

/-- The page-level effects `captureLongScreenshot` issues, in order. -/
inductive PageAction where
  | resetScroll : PageAction
  | scrollTo : ℚ → PageAction
  | captureScreen : ℕ → PageAction
  | measureElement : ℕ → PageAction
  deriving Repr, DecidableEq

/-- The external collaborators of `captureLongScreenshot`: the viewport
capture primitive (`captureFullPage`) and the post-scroll re-measure
(`getElementRectAfterScroll`), indexed by segment number; either may fail. -/
structure CaptureEnv where
  capture : ℕ → Except String Image
  measure : ℕ → Except String DOMRect

/-- The `for` loop of `ScreenshotProcessor.captureLongScreenshot`
(src/utils/screenshotProcessor.ts:272-302): scroll, settle, capture,
re-measure, append.  A failing external call propagates (the source `catch`
rethrows) with the actions performed so far. -/
def captureLoop (env : CaptureEnv) :
    List (ℕ × ScrollPosition) → List PageAction → List LongScreenshotSegment →
    List PageAction × Except String (List LongScreenshotSegment)
  | [], actions, segments => (actions, .ok segments)
  | (i, scrollPos) :: rest, actions, segments =>
    let actions := actions ++ [PageAction.scrollTo scrollPos.y]
    match env.capture i with
    | .error msg => (actions ++ [PageAction.captureScreen i], .error msg)
    | .ok img =>
      let actions := actions ++ [PageAction.captureScreen i]
      match env.measure i with
      | .error msg => (actions ++ [PageAction.measureElement i], .error msg)
      | .ok rect =>
        captureLoop env rest (actions ++ [PageAction.measureElement i])
          (segments ++ [{ dataUrl := img, scrollPosition := scrollPos
                          segmentIndex := i, elementRect := rect }])

/-- `ScreenshotProcessor.captureLongScreenshot`
(src/utils/screenshotProcessor.ts:250-319): reset scroll, capture every
planned segment, reset scroll again, return the segments and
`elementInfo.totalHeight`.  There is no `finally` in the source: on a
failure the `catch` block only rewraps and rethrows, so the trailing scroll
reset is not performed. -/
def captureLongScreenshot (env : CaptureEnv) (elementInfo : ElementInfo) :
    List PageAction × Except String (List LongScreenshotSegment × ℚ) :=
  let scrollSegments := calculateScrollSegments elementInfo
  let loopOut := captureLoop env scrollSegments.enum [PageAction.resetScroll] []
  match loopOut.2 with
  | .error msg =>
    (loopOut.1, .error ("Long screenshot capture failed: " ++ msg))
  | .ok segments =>
    (loopOut.1 ++ [PageAction.resetScroll], .ok (segments, elementInfo.totalHeight))

/-- The vertical scroll position of the target after a list of page actions,
starting from `y₀` (`resetScroll` moves to 0, `scrollTo` moves to the
requested offset, other actions do not move it). -/
def finalScrollY (y₀ : ℚ) (actions : List PageAction) : ℚ :=
  actions.foldl
    (fun yCur a =>
      match a with
      | PageAction.resetScroll => 0
      | PageAction.scrollTo yNew => yNew
      | _ => yCur)
    y₀

end ScreenshotProcessor

namespace ErrorHandler

/-- `ScreenshotError` from src/types/index.ts. -/
inductive ScreenshotError where
  | ELEMENT_NOT_FOUND : ScreenshotError
  | PERMISSION_DENIED : ScreenshotError
  | CAPTURE_FAILED : ScreenshotError
  | PROCESSING_ERROR : ScreenshotError
  | DOWNLOAD_FAILED : ScreenshotError
  deriving Repr, DecidableEq

/-- Severity levels of src/utils/errorHandler.ts. -/
inductive Severity where
  | low : Severity
  | medium : Severity
  | high : Severity
  | critical : Severity
  deriving Repr, DecidableEq

/-- `ErrorInfo` from src/utils/errorHandler.ts (`technicalDetails` is
opaque and omitted). -/
structure ErrorInfo where
  code : ScreenshotError
  message : String
  chineseMessage : String
  severity : Severity
  retryable : Bool
  fallbackAvailable : Bool
  userAction : Option String
  deriving Repr, DecidableEq

/-- `RetryConfig` from src/utils/errorHandler.ts. -/
structure RetryConfig where
  maxAttempts : ℕ
  delayMs : ℚ
  backoffMultiplier : ℚ
  retryableErrors : List ScreenshotError
  deriving Repr, DecidableEq

/-- `ErrorHandler.DEFAULT_RETRY_CONFIG` (src/utils/errorHandler.ts:31-40). -/
def DEFAULT_RETRY_CONFIG : RetryConfig :=
  { maxAttempts := 3
    delayMs := 1000
    backoffMultiplier := 2
    retryableErrors := [ScreenshotError.CAPTURE_FAILED,
      ScreenshotError.PROCESSING_ERROR, ScreenshotError.DOWNLOAD_FAILED] }

/-- `ErrorHandler.ERROR_DEFINITIONS` (src/utils/errorHandler.ts:49-95). -/
def ERROR_DEFINITIONS : ScreenshotError → ErrorInfo
  | ScreenshotError.ELEMENT_NOT_FOUND =>
    { code := ScreenshotError.ELEMENT_NOT_FOUND
      message := "Element not found on the page"
      chineseMessage := "頁面上找不到指定的元素"
      severity := Severity.medium
      retryable := false
      fallbackAvailable := false
      userAction := some "請重新選擇要截圖的元素" }
  | ScreenshotError.PERMISSION_DENIED =>
    { code := ScreenshotError.PERMISSION_DENIED
      message := "Permission denied for screenshot capture"
      chineseMessage := "截圖權限被拒絕"
      severity := Severity.high
      retryable := false
      fallbackAvailable := false
      userAction := some "請檢查瀏覽器權限設置並重新載入頁面" }
  | ScreenshotError.CAPTURE_FAILED =>
    { code := ScreenshotError.CAPTURE_FAILED
      message := "Failed to capture screenshot"
      chineseMessage := "截圖捕獲失敗"
      severity := Severity.medium
      retryable := true
      fallbackAvailable := true
      userAction := some "正在嘗試重新截圖..." }
  | ScreenshotError.PROCESSING_ERROR =>
    { code := ScreenshotError.PROCESSING_ERROR
      message := "Error processing screenshot"
      chineseMessage := "截圖處理過程中發生錯誤"
      severity := Severity.medium
      retryable := true
      fallbackAvailable := true
      userAction := some "正在嘗試使用簡化模式..." }
  | ScreenshotError.DOWNLOAD_FAILED =>
    { code := ScreenshotError.DOWNLOAD_FAILED
      message := "Failed to download screenshot"
      chineseMessage := "截圖下載失敗"
      severity := Severity.low
      retryable := true
      fallbackAvailable := true
      userAction := some "正在準備手動保存選項..." }

/-- `ErrorHandler.createErrorInfo` (src/utils/errorHandler.ts:100-112). -/
def createErrorInfo (error : ScreenshotError) (customMessage : Option String) :
    ErrorInfo :=
  let baseInfo := ERROR_DEFINITIONS error
  { baseInfo with message := customMessage.getD baseInfo.message }

/-- `string.toLowerCase()` of JS, on the character list of the string. -/
def strToLower (s : String) : String :=
  String.mk (s.data.map Char.toLower)

/-- Whether `s` starts with `pat` (character-exact). -/
def listStartsWith : List Char → List Char → Bool
  | [], _ => true
  | _ :: _, [] => false
  | a :: as, b :: bs => a == b && listStartsWith as bs

/-- Whether `pat` occurs contiguously inside `s`. -/
def listContained (pat : List Char) : List Char → Bool
  | [] => listStartsWith pat []
  | b :: bs => listStartsWith pat (b :: bs) || listContained pat bs

/-- `message.includes(pat)` of JS. -/
def strIncludes (s pat : String) : Bool :=
  listContained pat.data s.data

/-- `ErrorHandler.classifyError` (src/utils/errorHandler.ts:181-202),
taking the failure's message string. -/
def classifyError (message : String) : ScreenshotError :=
  let msg := strToLower message
  if strIncludes msg "element not found" || strIncludes msg "selector" then
    ScreenshotError.ELEMENT_NOT_FOUND
  else if strIncludes msg "permission" || strIncludes msg "denied" ||
      strIncludes msg "unauthorized" then
    ScreenshotError.PERMISSION_DENIED
  else if strIncludes msg "download" || strIncludes msg "save" then
    ScreenshotError.DOWNLOAD_FAILED
  else if strIncludes msg "capture" || strIncludes msg "screenshot" then
    ScreenshotError.CAPTURE_FAILED
  else
    ScreenshotError.PROCESSING_ERROR

/-- Observable outcome of the retry loop of `ErrorHandler.handleError`:
the produced value (if any), the last error message, the backoff delays
slept between attempts, and the number of attempts made. -/
structure AttemptTrace (α : Type) where
  result : Option α
  lastError : Option String
  delays : List ℚ
  attemptsMade : ℕ
  deriving Repr

/-- The `while` loop of `ErrorHandler.handleError`
(src/utils/errorHandler.ts:129-159).  `operation n` is the outcome of the
n-th call of the wrapped operation (1-based).  The fuel starts at
`config.maxAttempts` and maintains the invariant `fuel = maxAttempts −
attempt`, so the fuel-0 base case is exactly the `attempt < maxAttempts`
loop exit. -/
def handleErrorLoop (config : RetryConfig) (operation : ℕ → Except String α) :
    ℕ → ℕ → List ℚ → Option String → AttemptTrace α
  | 0, attempt, delays, lastError =>
    { result := none, lastError := lastError, delays := delays, attemptsMade := attempt }
  | fuel + 1, attempt, delays, lastError =>
    let attempt := attempt + 1
    match operation attempt with
    | .ok result =>
      { result := some result, lastError := lastError, delays := delays
        attemptsMade := attempt }
    | .error msg =>
      let errorInfo := createErrorInfo (classifyError msg) none
      if ¬ errorInfo.retryable ∨ config.maxAttempts ≤ attempt then
        { result := none, lastError := some msg, delays := delays
          attemptsMade := attempt }
      else
        handleErrorLoop config operation fuel attempt
          (delays ++ [config.delayMs * config.backoffMultiplier ^ (attempt - 1)])
          (some msg)

/-- `ErrorHandler.handleError` (src/utils/errorHandler.ts:117-176) minus the
console logging.  After the loop: a success returns the operation's value;
otherwise, when the classified error is fallback-eligible, the source's
`attemptFallback` runs fallback strategies that all throw `not implemented
yet`, so it deterministically throws `All fallback strategies failed`;
otherwise the enhanced error (whose message is the Chinese message of the
classification) is thrown. -/
def handleError (config : RetryConfig) (operation : ℕ → Except String α) :
    AttemptTrace α × Except String α :=
  let trace := handleErrorLoop config operation config.maxAttempts 0 [] none
  match trace.result with
  | some v => (trace, .ok v)
  | none =>
    match trace.lastError with
    | some msg =>
      let errorInfo := createErrorInfo (classifyError msg) none
      if errorInfo.fallbackAvailable then
        (trace, .error ("All fallback strategies failed for error: " ++
          errorInfo.chineseMessage))
      else
        (trace, .error errorInfo.chineseMessage)
    | none => (trace, .error "Unknown error occurred")

end ErrorHandler

namespace ContentScript

/-- `parseShadowExtent` (content script, src/unnamed/part_001:987-1018),
over the parsed numeric shadow list: per shadow
`max(|offsetX|,|offsetY|) + |blurRadius| + |spreadRadius|` (the source takes
`Math.abs` of every component), folded with `max` from 0. -/
def parseShadowExtent (shadows : List ShadowSpec) : ℚ :=
  shadows.foldl
    (fun maxExtent sh =>
      max maxExtent (max |sh.offsetX| |sh.offsetY| + |sh.blurRadius| + |sh.spreadRadius|))
    0

/-- `calculateShadowBounds` (content script, src/unnamed/part_001:937-983).
`boxShadow`/`textShadow` are `none` when the CSS value is absent or the
literal string `none`; otherwise they carry the parsed shadow list.
`scrollX`/`scrollY` convert the viewport rect to page coordinates exactly as
the source does. -/
def calculateShadowBounds (rect : DOMRect) (scrollX scrollY : ℚ)
    (boxShadow textShadow : Option (List ShadowSpec)) : ShadowInfo :=
  let maxShadowExtent : ℚ := 0
  let maxShadowExtent :=
    match boxShadow with
    | some shadows => max maxShadowExtent (parseShadowExtent shadows)
    | none => maxShadowExtent
  let maxShadowExtent :=
    match textShadow with
    | some shadows => max maxShadowExtent (parseShadowExtent shadows)
    | none => maxShadowExtent
  { shadowBounds :=
    { x := rect.left + scrollX - maxShadowExtent
      y := rect.top + scrollY - maxShadowExtent
      width := rect.width + maxShadowExtent * 2
      height := rect.height + maxShadowExtent * 2
      top := rect.top + scrollY - maxShadowExtent
      right := rect.right + scrollX + maxShadowExtent
      bottom := rect.bottom + scrollY + maxShadowExtent
      left := rect.left + scrollX - maxShadowExtent } }

/-- The component extent the spec's §4.1 formula assigns to one shadow:
`max(|offsetX|,|offsetY|) + blur + spread`, with no absolute value on blur
or spread.  Modelled from the spec's words, for comparison with
`parseShadowExtent`. -/
def specShadowExtentSingle (sh : ShadowSpec) : ℚ :=
  max |sh.offsetX| |sh.offsetY| + sh.blurRadius + sh.spreadRadius

/-- The DOM readings `detectScrollableElement` makes on an element. -/
structure ScrollDetectInput where
  rect : DOMRect
  overflowY : String
  overflow : String
  scrollHeight : ℚ
  clientHeight : ℚ
  windowInnerHeight : ℚ
  deriving Repr, DecidableEq

/-- Result record of `detectScrollableElement`. -/
structure ScrollDetectResult where
  isScrollable : Bool
  totalHeight : ℚ
  visibleHeight : ℚ
  deriving Repr, DecidableEq

/-- `detectScrollableElement` (content script, src/unnamed/part_001:693-724).
The source literal `1.5` is the rational 3/2. -/
def detectScrollableElement (el : ScrollDetectInput) : ScrollDetectResult :=
  let hasVerticalOverflow :=
    el.overflowY == "scroll" || el.overflowY == "auto" ||
    el.overflow == "scroll" || el.overflow == "auto"
  let scrollHeight := el.scrollHeight
  let clientHeight := el.clientHeight
  let visibleHeight := el.rect.height
  let isScrollable :=
    hasVerticalOverflow && (if clientHeight < scrollHeight then true else false)
  let exceedsViewport :=
    if el.windowInnerHeight * (3 / 2) < scrollHeight then true else false
  let isLongContent := isScrollable || exceedsViewport
  { isScrollable := isLongContent
    totalHeight := max scrollHeight visibleHeight
    visibleHeight := visibleHeight }

end ContentScript

/-! Concrete sample inputs used in counterexamples and witnesses. -/

/-- A scrollable element of total height 2400 and visible height 600 (the
geometry of the spec's worked example). -/
def sampleElement2400 : ElementInfo :=
  { boundingRect := mkRect 0 0 800 600
    isScrollable := true
    totalHeight := 2400
    visibleHeight := 600
    hasTransform := false
    transformMatrix := none
    hasShadow := false
    shadowInfo := none
    isInIframe := false
    iframeInfo := none
    isFixed := false
    zIndex := 0 }

/-- A scrollable element of total height 1000 and visible height 10, whose
plan needs 124 steps of 8 and therefore trips the 50-segment safety limit. -/
def sampleElement1000 : ElementInfo :=
  { boundingRect := mkRect 0 0 100 10
    isScrollable := true
    totalHeight := 1000
    visibleHeight := 10
    hasTransform := false
    transformMatrix := none
    hasShadow := false
    shadowInfo := none
    isInIframe := false
    iframeInfo := none
    isFixed := false
    zIndex := 0 }

/-- A plain element of width 10 and total height 200 used by the stitching
counterexamples. -/
def sampleStitchElement : ElementInfo :=
  { boundingRect := mkRect 0 0 10 50
    isScrollable := true
    totalHeight := 200
    visibleHeight := 50
    hasTransform := false
    transformMatrix := none
    hasShadow := false
    shadowInfo := none
    isInIframe := false
    iframeInfo := none
    isFixed := false
    zIndex := 0 }

/-- `stackedFrom y ds` says the draw operations `ds` are written back to
back starting at vertical offset `y`: each draw lands at the running offset
and advances it by its own destination height. -/
def stackedFrom : ℚ → List DrawOp → Prop
  | _, [] => True
  | y, d :: ds => d.dstY = y ∧ stackedFrom (y + d.dstH) ds

/-- A captured segment at scroll 0: raster 10×50, element rect 10×50. -/
def stitchSegA : LongScreenshotSegment :=
  { dataUrl := { width := 10, height := 50 }
    scrollPosition := { x := 0, y := 0, isComplete := false }
    segmentIndex := 0
    elementRect := mkRect 0 0 10 50 }

/-- A captured segment at scroll 40: raster 10×50, element rect 10×50. -/
def stitchSegB : LongScreenshotSegment :=
  { dataUrl := { width := 10, height := 50 }
    scrollPosition := { x := 0, y := 40, isComplete := false }
    segmentIndex := 1
    elementRect := mkRect 0 0 10 50 }

/-- A segment whose scroll did not advance (same scroll y as `stitchSegA`)
and whose element rect claims height 100 while its raster is only 50 tall,
so its crop is clamped by the raster bounds. -/
def stuckSeg : LongScreenshotSegment :=
  { dataUrl := { width := 10, height := 50 }
    scrollPosition := { x := 0, y := 0, isComplete := false }
    segmentIndex := 1
    elementRect := mkRect 0 0 10 100 }

/-- An external environment whose capture and measure primitives always
succeed (raster 800×600, element measured at 800×600). -/
def sampleEnvOk : ScreenshotProcessor.CaptureEnv :=
  { capture := fun _ => Except.ok { width := 800, height := 600 }
    measure := fun _ => Except.ok (mkRect 0 0 800 600) }

/-- An external environment whose capture primitive succeeds on segment 0
and fails from segment 1 on. -/
def sampleEnvFail : ScreenshotProcessor.CaptureEnv :=
  { capture := fun i =>
      if i = 0 then Except.ok { width := 800, height := 600 }
      else Except.error "capture failed"
    measure := fun _ => Except.ok (mkRect 0 0 800 600) }

/-- An operation that fails with a capture-classified error on its first
two calls and resolves to 42 on the third. -/
def sampleRetryOps : ℕ → Except String ℕ := fun n =>
  if n ≤ 2 then Except.error "capture failed" else Except.ok 42

end ChromeShot

/-! ## Theorems -/

section Theorems

open ChromeShot ChromeShot.ScreenshotProcessor ChromeShot.ErrorHandler ChromeShot.ContentScript

/-- One-step unfolding of `scrollSegsAux`, used to drive concrete
evaluations and inductions. -/
theorem scrollSegsAux_succ (segmentHeight totalScrollHeight : ℚ) (fuel : ℕ)
    (currentScrollTop : ℚ) (acc : List ScrollPosition) :
    scrollSegsAux segmentHeight totalScrollHeight (fuel + 1) currentScrollTop acc =
      if currentScrollTop ≤ totalScrollHeight then
        let acc2 := acc ++
          [{ x := 0, y := currentScrollTop
             isComplete := if totalScrollHeight ≤ currentScrollTop then true else false }]
        if totalScrollHeight ≤ currentScrollTop then acc2
        else if 50 < acc2.length then acc2
        else scrollSegsAux segmentHeight totalScrollHeight fuel
          (currentScrollTop + segmentHeight) acc2
      else acc := rfl

/-- C10: the `ElementInfo` produced by `detectScrollableElement` always
satisfies `totalHeight ≥ visibleHeight`, because `totalHeight` is the
maximum of the element's `scrollHeight` and its rendered height, so the
planner's scrollable extent `totalHeight − visibleHeight` is never
negative. -/
theorem C10_detect_total_ge_visible (el : ScrollDetectInput) :
    (detectScrollableElement el).totalHeight = max el.scrollHeight el.rect.height ∧
    (detectScrollableElement el).visibleHeight ≤ (detectScrollableElement el).totalHeight ∧
    0 ≤ (detectScrollableElement el).totalHeight - (detectScrollableElement el).visibleHeight := by
  refine ⟨rfl, ?_, ?_⟩
  · simp [detectScrollableElement]
  · simp [detectScrollableElement]

/-- C9: stitching a single segment is exactly the direct crop — 
`stitchScreenshotSegments [s] e dpr` returns precisely
`cropToElement s.dataUrl e dpr`. -/
theorem C9_single_segment_stitch_is_crop (s : LongScreenshotSegment)
    (e : ElementInfo) (dpr : ℚ) :
    stitchScreenshotSegments [s] e dpr =
      Except.ok (cropToElement s.dataUrl e dpr) := rfl

end Theorems

section TheoremsShadow

open ChromeShot ChromeShot.ContentScript

/-- Folding `max` from an initial value never goes below it. -/
theorem le_foldl_max (f : ShadowSpec → ℚ) :
    ∀ (l : List ShadowSpec) (a : ℚ), a ≤ l.foldl (fun m sh => max m (f sh)) a := by
  intro l
  induction l with
  | nil => intro a; simp
  | cons sh rest ih =>
    intro a
    calc a ≤ max a (f sh) := le_max_left _ _
    _ ≤ rest.foldl (fun m s => max m (f s)) (max a (f sh)) := ih _

/-- The maximal shadow extent computed by the source is never negative. -/
theorem parseShadowExtent_nonneg (shadows : List ShadowSpec) :
    0 ≤ parseShadowExtent shadows :=
  le_foldl_max _ shadows 0

/-- C8 (amended): `calculateShadowBounds` expands all four edges of the
page-coordinate box symmetrically by exactly the computed maximal extent,
which for a single shadow is `max(|offsetX|,|offsetY|) + |blur| + |spread|`
— the absolute values of blur and spread, which coincides with the spec's
`blur + spread` whenever both are non-negative; with no shadow the box is
unchanged; the box `{left:100,top:100,width:200,height:100}` with a shadow
of extent 15 yields `{left:85,top:85,width:230,height:130}`. -/
theorem C8_shadow_expansion_amended :
    (∀ (rect : DOMRect) (sx sy : ℚ) (shadows : List ShadowSpec),
      (calculateShadowBounds rect sx sy (some shadows) none).shadowBounds =
        { x := rect.left + sx - parseShadowExtent shadows
          y := rect.top + sy - parseShadowExtent shadows
          width := rect.width + parseShadowExtent shadows * 2
          height := rect.height + parseShadowExtent shadows * 2
          top := rect.top + sy - parseShadowExtent shadows
          right := rect.right + sx + parseShadowExtent shadows
          bottom := rect.bottom + sy + parseShadowExtent shadows
          left := rect.left + sx - parseShadowExtent shadows }) ∧
    (∀ (rect : DOMRect) (sx sy : ℚ),
      (calculateShadowBounds rect sx sy none none).shadowBounds =
        { x := rect.left + sx, y := rect.top + sy
          width := rect.width, height := rect.height
          top := rect.top + sy, right := rect.right + sx
          bottom := rect.bottom + sy, left := rect.left + sx }) ∧
    (∀ sh : ShadowSpec,
      parseShadowExtent [sh] = max |sh.offsetX| |sh.offsetY| + |sh.blurRadius| + |sh.spreadRadius|) ∧
    (∀ sh : ShadowSpec, 0 ≤ sh.blurRadius → 0 ≤ sh.spreadRadius →
      parseShadowExtent [sh] = specShadowExtentSingle sh) ∧
    (calculateShadowBounds (mkRect 100 100 200 100) 0 0
        (some [{ offsetX := 10, offsetY := 15, blurRadius := 0, spreadRadius := 0 }])
        none).shadowBounds =
      { x := 85, y := 85, width := 230, height := 130
        top := 85, right := 315, bottom := 215, left := 85 } := by
  have hsingle : ∀ sh : ShadowSpec,
      parseShadowExtent [sh] =
        max |sh.offsetX| |sh.offsetY| + |sh.blurRadius| + |sh.spreadRadius| := by
    intro sh
    have hnn : 0 ≤ max |sh.offsetX| |sh.offsetY| + |sh.blurRadius| + |sh.spreadRadius| := by
      have h1 : (0 : ℚ) ≤ max |sh.offsetX| |sh.offsetY| :=
        le_trans (abs_nonneg _) (le_max_left _ _)
      have h2 : (0 : ℚ) ≤ |sh.blurRadius| := abs_nonneg _
      have h3 : (0 : ℚ) ≤ |sh.spreadRadius| := abs_nonneg _
      linarith
    simp [parseShadowExtent, max_eq_right hnn]
  refine ⟨?_, ?_, hsingle, ?_, ?_⟩
  · intro rect sx sy shadows
    simp [calculateShadowBounds, max_eq_right (parseShadowExtent_nonneg shadows)]
  · intro rect sx sy
    simp [calculateShadowBounds]
  · intro sh hb hs
    rw [hsingle sh]
    simp [specShadowExtentSingle, abs_of_nonneg hb, abs_of_nonneg hs]
  · have h15 : parseShadowExtent
        [{ offsetX := 10, offsetY := 15, blurRadius := 0, spreadRadius := 0 }] = 15 := by
      rw [hsingle]
      norm_num
    simp [calculateShadowBounds, max_eq_right, h15]
    norm_num [mkRect]

/-- C8 counterexample: for a shadow with negative spread (legal CSS), the
source expands by `|spread|` while the claim's formula
`max(|offsetX|,|offsetY|) + blur + spread` gives a negative extent: the
claimed expanded left edge would be `100 − (−5) = 105` (or `100` if the
negative extent were clamped to zero), but the source produces `95`. -/
theorem C8_counterexample :
    specShadowExtentSingle
        { offsetX := 0, offsetY := 0, blurRadius := 0, spreadRadius := -5 } = -5 ∧
    (calculateShadowBounds (mkRect 100 100 200 100) 0 0
        (some [{ offsetX := 0, offsetY := 0, blurRadius := 0, spreadRadius := -5 }])
        none).shadowBounds.left = 95 ∧
    ((95 : ℚ) ≠ 100 - (-5)) ∧ ((95 : ℚ) ≠ 100) := by
  have habs : |(-5 : ℚ)| = 5 := by
    rw [abs_of_nonpos] <;> norm_num
  refine ⟨?_, ?_, by norm_num, by norm_num⟩
  · simp [specShadowExtentSingle]
  · have h5 : parseShadowExtent
        [{ offsetX := 0, offsetY := 0, blurRadius := 0, spreadRadius := -5 }] = 5 := by
      simp [parseShadowExtent, habs]
    simp [calculateShadowBounds, h5, mkRect]
    norm_num

end TheoremsShadow

section TheoremsClassify

open ChromeShot ChromeShot.ErrorHandler

/-- C6 (amended): classification is keyword-based on the lowercased message
with rule order as in the source: `"element not found"`/`"selector"` (the
full phrase, not the bare word `"element"`) → ElementNotFound;
`"permission"`/`"denied"`/`"unauthorized"` → PermissionDenied;
`"download"`/`"save"` → DownloadFailed; `"capture"`/`"screenshot"` →
CaptureFailed; everything else → ProcessingError; ElementNotFound and
PermissionDenied are exactly the non-retryable classes. -/
theorem C6_classify_amended (message : String) :
    ((strIncludes (strToLower message) "element not found" ||
        strIncludes (strToLower message) "selector") = true →
      classifyError message = ScreenshotError.ELEMENT_NOT_FOUND) ∧
    ((strIncludes (strToLower message) "element not found" ||
        strIncludes (strToLower message) "selector") = false →
      (strIncludes (strToLower message) "permission" ||
        strIncludes (strToLower message) "denied" ||
        strIncludes (strToLower message) "unauthorized") = true →
      classifyError message = ScreenshotError.PERMISSION_DENIED) ∧
    ((strIncludes (strToLower message) "element not found" ||
        strIncludes (strToLower message) "selector") = false →
      (strIncludes (strToLower message) "permission" ||
        strIncludes (strToLower message) "denied" ||
        strIncludes (strToLower message) "unauthorized") = false →
      (strIncludes (strToLower message) "download" ||
        strIncludes (strToLower message) "save") = true →
      classifyError message = ScreenshotError.DOWNLOAD_FAILED) ∧
    ((strIncludes (strToLower message) "element not found" ||
        strIncludes (strToLower message) "selector") = false →
      (strIncludes (strToLower message) "permission" ||
        strIncludes (strToLower message) "denied" ||
        strIncludes (strToLower message) "unauthorized") = false →
      (strIncludes (strToLower message) "download" ||
        strIncludes (strToLower message) "save") = false →
      (strIncludes (strToLower message) "capture" ||
        strIncludes (strToLower message) "screenshot") = true →
      classifyError message = ScreenshotError.CAPTURE_FAILED) ∧
    ((strIncludes (strToLower message) "element not found" ||
        strIncludes (strToLower message) "selector") = false →
      (strIncludes (strToLower message) "permission" ||
        strIncludes (strToLower message) "denied" ||
        strIncludes (strToLower message) "unauthorized") = false →
      (strIncludes (strToLower message) "download" ||
        strIncludes (strToLower message) "save") = false →
      (strIncludes (strToLower message) "capture" ||
        strIncludes (strToLower message) "screenshot") = false →
      classifyError message = ScreenshotError.PROCESSING_ERROR) ∧
    ((ERROR_DEFINITIONS (classifyError message)).retryable = false ↔
      (classifyError message = ScreenshotError.ELEMENT_NOT_FOUND ∨
        classifyError message = ScreenshotError.PERMISSION_DENIED)) := by
  refine ⟨?_, ?_, ?_, ?_, ?_, ?_⟩
  · intro h1
    simp [classifyError, h1]
  · intro h1 h2
    simp [classifyError, h1, h2]
  · intro h1 h2 h3
    simp [classifyError, h1, h2, h3]
  · intro h1 h2 h3 h4
    simp [classifyError, h1, h2, h3, h4]
  · intro h1 h2 h3 h4
    simp [classifyError, h1, h2, h3, h4]
  · cases hc : classifyError message <;> simp [ERROR_DEFINITIONS]

/-- C6 witness: the message `"bad selector"` matches the first rule and is
classified ElementNotFound. -/
theorem C6_classify_amended_witness :
    (strIncludes (strToLower "bad selector") "element not found" ||
      strIncludes (strToLower "bad selector") "selector") = true ∧
    classifyError "bad selector" = ScreenshotError.ELEMENT_NOT_FOUND :=
  ⟨by decide, (C6_classify_amended "bad selector").1 (by decide)⟩

/-- C6 counterexample: the message `"stale element"` contains the keyword
`"element"` yet is classified ProcessingError (the source matches the full
phrase `"element not found"`, not `"element"`); and the message
`"unauthorized"` contains none of the claim's keywords yet is classified
PermissionDenied rather than ProcessingError. -/
theorem C6_counterexample :
    strIncludes (strToLower "stale element") "element" = true ∧
    classifyError "stale element" = ScreenshotError.PROCESSING_ERROR ∧
    classifyError "stale element" ≠ ScreenshotError.ELEMENT_NOT_FOUND ∧
    strIncludes (strToLower "unauthorized") "permission" = false ∧
    strIncludes (strToLower "unauthorized") "denied" = false ∧
    strIncludes (strToLower "unauthorized") "download" = false ∧
    strIncludes (strToLower "unauthorized") "save" = false ∧
    strIncludes (strToLower "unauthorized") "capture" = false ∧
    strIncludes (strToLower "unauthorized") "screenshot" = false ∧
    strIncludes (strToLower "unauthorized") "element" = false ∧
    strIncludes (strToLower "unauthorized") "selector" = false ∧
    classifyError "unauthorized" = ScreenshotError.PERMISSION_DENIED ∧
    classifyError "unauthorized" ≠ ScreenshotError.PROCESSING_ERROR := by
  decide

end TheoremsClassify


section TheoremsPlanner

open ChromeShot ChromeShot.ScreenshotProcessor

/-- One-step unfolding of `scrollSegsAux` through `pushedPos`, used in the
loop-invariant inductions. -/
theorem scrollSegsAux_succ_pushed (s T : ℚ) (fuel : ℕ) (y : ℚ)
    (acc : List ScrollPosition) :
    scrollSegsAux s T (fuel + 1) y acc =
      if y ≤ T then
        if T ≤ y then acc ++ [pushedPos T y]
        else if 50 < (acc ++ [pushedPos T y]).length then acc ++ [pushedPos T y]
        else scrollSegsAux s T fuel (y + s) (acc ++ [pushedPos T y])
      else acc := rfl

/-- The planner loop only appends to its accumulator. -/
theorem scrollSegsAux_prefix (s T : ℚ) :
    ∀ (fuel : ℕ) (y : ℚ) (acc : List ScrollPosition),
      ∃ l, scrollSegsAux s T fuel y acc = acc ++ l := by
  intro fuel
  induction fuel with
  | zero => intro y acc; exact ⟨[], by simp [scrollSegsAux]⟩
  | succ n ih =>
    intro y acc
    rw [scrollSegsAux_succ_pushed]
    by_cases h1 : y ≤ T
    · simp only [if_pos h1]
      by_cases h2 : T ≤ y
      · exact ⟨[pushedPos T y], by rw [if_pos h2]⟩
      · simp only [if_neg h2]
        by_cases h3 : 50 < (acc ++ [pushedPos T y]).length
        · exact ⟨[pushedPos T y], by rw [if_pos h3]⟩
        · rw [if_neg h3]
          obtain ⟨l, hl⟩ := ih (y + s) (acc ++ [pushedPos T y])
          exact ⟨[pushedPos T y] ++ l, by rw [hl, List.append_assoc]⟩
    · rw [if_neg h1]
      exact ⟨[], by simp⟩

/-- Every position the planner loop appends has `x = 0`, a `y` within the
scrollable extent, and a completion flag that is exactly "`y` reached the
extent". -/
theorem scrollSegsAux_mem (s T : ℚ) :
    ∀ (fuel : ℕ) (y : ℚ) (acc : List ScrollPosition),
      ∀ p ∈ scrollSegsAux s T fuel y acc,
        p ∈ acc ∨ (p.x = 0 ∧ p.y ≤ T ∧
          p.isComplete = if T ≤ p.y then true else false) := by
  intro fuel
  induction fuel with
  | zero => intro y acc p hp; exact Or.inl (by simpa [scrollSegsAux] using hp)
  | succ n ih =>
    intro y acc p hp
    rw [scrollSegsAux_succ_pushed] at hp
    by_cases h1 : y ≤ T
    · have hpush : ∀ q : ScrollPosition, q = pushedPos T y →
          q.x = 0 ∧ q.y ≤ T ∧ q.isComplete = if T ≤ q.y then true else false := by
        intro q hq
        subst hq
        exact ⟨rfl, h1, rfl⟩
      simp only [if_pos h1] at hp
      by_cases h2 : T ≤ y
      · simp only [if_pos h2] at hp
        rcases List.mem_append.1 hp with h | h
        · exact Or.inl h
        · exact Or.inr (hpush p (List.mem_singleton.1 h))
      · simp only [if_neg h2] at hp
        by_cases h3 : 50 < (acc ++ [pushedPos T y]).length
        · simp only [if_pos h3] at hp
          rcases List.mem_append.1 hp with h | h
          · exact Or.inl h
          · exact Or.inr (hpush p (List.mem_singleton.1 h))
        · simp only [if_neg h3] at hp
          rcases ih (y + s) _ p hp with h | h
          · rcases List.mem_append.1 h with h4 | h4
            · exact Or.inl h4
            · exact Or.inr (hpush p (List.mem_singleton.1 h4))
          · exact Or.inr h
    · simp only [if_neg h1] at hp
      exact Or.inl hp

/-- As long as the step is non-negative, the planner loop preserves
ordering: starting from a chained accumulator whose last `y` is at most the
current scroll top, the result is chained in `y`. -/
theorem scrollSegsAux_chain (s T : ℚ) (hs : 0 ≤ s) :
    ∀ (fuel : ℕ) (y : ℚ) (acc : List ScrollPosition),
      List.Chain' (fun a b => a.y ≤ b.y) acc →
      (∀ a ∈ acc.getLast?, a.y ≤ y) →
      List.Chain' (fun a b => a.y ≤ b.y) (scrollSegsAux s T fuel y acc) := by
  intro fuel
  induction fuel with
  | zero => intro y acc hc _; simpa [scrollSegsAux] using hc
  | succ n ih =>
    intro y acc hc hlast
    rw [scrollSegsAux_succ_pushed]
    have hc2 : List.Chain' (fun a b => a.y ≤ b.y) (acc ++ [pushedPos T y]) := by
      rw [List.chain'_append]
      refine ⟨hc, List.chain'_singleton _, ?_⟩
      intro a ha b hb
      simp only [List.head?_cons, Option.mem_def, Option.some.injEq] at hb
      subst hb
      simpa [pushedPos] using hlast a ha
    by_cases h1 : y ≤ T
    · simp only [if_pos h1]
      by_cases h2 : T ≤ y
      · rw [if_pos h2]
        exact hc2
      · rw [if_neg h2]
        by_cases h3 : 50 < (acc ++ [pushedPos T y]).length
        · rw [if_pos h3]
          exact hc2
        · rw [if_neg h3]
          refine ih (y + s) _ hc2 ?_
          intro a ha
          rw [List.getLast?_concat] at ha
          simp only [Option.mem_def, Option.some.injEq] at ha
          subst ha
          simp only [pushedPos]
          linarith
    · rw [if_neg h1]
      exact hc

/-- The planner loop never grows its accumulator beyond 51 entries when it
starts with at most 50. -/
theorem scrollSegsAux_length (s T : ℚ) :
    ∀ (fuel : ℕ) (y : ℚ) (acc : List ScrollPosition),
      acc.length ≤ 50 → (scrollSegsAux s T fuel y acc).length ≤ 51 := by
  intro fuel
  induction fuel with
  | zero => intro y acc h; simp only [scrollSegsAux]; omega
  | succ n ih =>
    intro y acc h
    rw [scrollSegsAux_succ_pushed]
    have hlen2 : (acc ++ [pushedPos T y]).length ≤ 51 := by
      simp only [List.length_append, List.length_singleton]
      omega
    by_cases h1 : y ≤ T
    · simp only [if_pos h1]
      by_cases h2 : T ≤ y
      · rw [if_pos h2]
        exact hlen2
      · rw [if_neg h2]
        by_cases h3 : 50 < (acc ++ [pushedPos T y]).length
        · rw [if_pos h3]
          exact hlen2
        · rw [if_neg h3]
          refine ih (y + s) _ ?_
          simp only [List.length_append, List.length_singleton] at h3 ⊢
          omega
    · rw [if_neg h1]
      omega

end TheoremsPlanner

section TheoremsPlannerClaims

open ChromeShot ChromeShot.ScreenshotProcessor

/-- Concrete run of the planner on the spec's worked geometry
(totalHeight 2400, visibleHeight 600): step 480, no clamping, no final
flag. -/
theorem calcScrollSegments_2400_eval :
    calculateScrollSegments sampleElement2400 =
      [{ x := 0, y := 0, isComplete := false },
       { x := 0, y := 480, isComplete := false },
       { x := 0, y := 960, isComplete := false },
       { x := 0, y := 1440, isComplete := false }] := by
  rw [calculateScrollSegments]
  norm_num [sampleElement2400]
  repeat (rw [scrollSegsAux_succ_pushed]; norm_num [pushedPos])

/-- C1 counterexample: on totalHeight 2400 / visibleHeight 600 the planner
emits `[0, 480, 960, 1440]` — the step is `0.8 × 600 = 480`, not 510; no
offset equals the scrollable extent 1800; and the last emitted offset is
not marked final. -/
theorem C1_counterexample :
    calculateScrollSegments sampleElement2400 =
      [{ x := 0, y := 0, isComplete := false },
       { x := 0, y := 480, isComplete := false },
       { x := 0, y := 960, isComplete := false },
       { x := 0, y := 1440, isComplete := false }] ∧
    sampleElement2400.totalHeight - sampleElement2400.visibleHeight = 1800 ∧
    (calculateScrollSegments sampleElement2400).map (fun p => p.y) ≠
      [0, 510, 1020, 1530, 1800] ∧
    (∀ p ∈ calculateScrollSegments sampleElement2400, p.y ≠ 1800) ∧
    (calculateScrollSegments sampleElement2400).getLast? =
      some { x := 0, y := 1440, isComplete := false } := by
  refine ⟨calcScrollSegments_2400_eval, by norm_num [sampleElement2400], ?_, ?_, ?_⟩
  · rw [calcScrollSegments_2400_eval]
    simp
  · rw [calcScrollSegments_2400_eval]
    intro p hp
    simp only [List.mem_cons, List.not_mem_nil, or_false] at hp
    rcases hp with h | h | h | h <;> subst h <;> norm_num
  · rw [calcScrollSegments_2400_eval]
    rfl

/-- C1 (amended): for a scrollable geometry with positive visible height
below the total height, the planner's offsets start at 0 and are
non-decreasing, every offset stays within the scrollable extent
`totalHeight − visibleHeight`, and an offset is marked final exactly when it
equals that extent — the source performs no clamping, so on
totalHeight 2400 / visibleHeight 600 (step `0.8 × 600 = 480`) it emits
`[0, 480, 960, 1440]` with no offset marked final. -/
theorem C1_planner_amended :
    (∀ e : ElementInfo, e.isScrollable = true →
      e.visibleHeight < e.totalHeight → 0 ≤ e.visibleHeight →
      (calculateScrollSegments e).head? =
        some { x := 0, y := 0, isComplete := false } ∧
      List.Chain' (fun a b => a.y ≤ b.y) (calculateScrollSegments e) ∧
      (∀ p ∈ calculateScrollSegments e,
        p.x = 0 ∧ p.y ≤ e.totalHeight - e.visibleHeight ∧
        (p.isComplete = true ↔ p.y = e.totalHeight - e.visibleHeight))) ∧
    calculateScrollSegments sampleElement2400 =
      [{ x := 0, y := 0, isComplete := false },
       { x := 0, y := 480, isComplete := false },
       { x := 0, y := 960, isComplete := false },
       { x := 0, y := 1440, isComplete := false }] := by
  refine ⟨?_, calcScrollSegments_2400_eval⟩
  intro e hscroll hvt hv
  have hT : 0 < e.totalHeight - e.visibleHeight := by linarith
  have hs : 0 ≤ e.visibleHeight * (4 / 5) := by
    have : (0 : ℚ) ≤ 4 / 5 := by norm_num
    exact mul_nonneg hv this
  have hcond : ¬ (¬ e.isScrollable ∨ e.totalHeight ≤ e.visibleHeight) := by
    rw [hscroll]
    push_neg
    exact ⟨by simp, by linarith⟩
  have hcalc : calculateScrollSegments e =
      scrollSegsAux (e.visibleHeight * (4 / 5))
        (e.totalHeight - e.visibleHeight) 52 0 [] := by
    rw [calculateScrollSegments, if_neg hcond]
  refine ⟨?_, ?_, ?_⟩
  · rw [hcalc, scrollSegsAux_succ_pushed]
    rw [if_pos (le_of_lt hT), if_neg (not_le.2 hT)]
    rw [if_neg (by simp)]
    obtain ⟨l, hl⟩ := scrollSegsAux_prefix (e.visibleHeight * (4 / 5))
      (e.totalHeight - e.visibleHeight) 51 (0 + e.visibleHeight * (4 / 5))
      ([] ++ [pushedPos (e.totalHeight - e.visibleHeight) 0])
    rw [hl]
    simp [pushedPos, if_neg (not_le.2 hT)]
    linarith
  · rw [hcalc]
    exact scrollSegsAux_chain _ _ hs 52 0 [] List.chain'_nil (by simp)
  · intro p hp
    rw [hcalc] at hp
    rcases scrollSegsAux_mem _ _ 52 0 [] p hp with h | ⟨hx, hy, hflag⟩
    · simp at h
    · refine ⟨hx, hy, ?_⟩
      constructor
      · intro hcomp
        by_contra hne
        have : ¬ (e.totalHeight - e.visibleHeight ≤ p.y) := by
          rcases lt_or_eq_of_le hy with h | h
          · exact not_le.2 h
          · exact absurd h hne
        rw [if_neg this] at hflag
        rw [hflag] at hcomp
        exact Bool.false_ne_true hcomp
      · intro heq
        rw [heq] at hflag
        rw [if_pos le_rfl] at hflag
        exact hflag

/-- C1 witness: the amended planner theorem applied to the concrete
totalHeight 2400 / visibleHeight 600 geometry. -/
theorem C1_planner_amended_witness :
    sampleElement2400.isScrollable = true ∧
    sampleElement2400.visibleHeight < sampleElement2400.totalHeight ∧
    (0 : ℚ) ≤ sampleElement2400.visibleHeight ∧
    (calculateScrollSegments sampleElement2400).head? =
      some { x := 0, y := 0, isComplete := false } :=
  ⟨rfl, by norm_num [sampleElement2400], by norm_num [sampleElement2400],
    (C1_planner_amended.1 sampleElement2400 rfl (by norm_num [sampleElement2400])
      (by norm_num [sampleElement2400])).1⟩

end TheoremsPlannerClaims

section TheoremsPlannerCap

open ChromeShot ChromeShot.ScreenshotProcessor

/-- Concrete run of the planner on totalHeight 1000 / visibleHeight 10:
the 50-segment safety limit fires after 51 emitted offsets, and the last
emitted offset (y = 400, far from the 990 extent) is not marked final. -/
theorem calcScrollSegments_1000_eval :
    (calculateScrollSegments sampleElement1000).length = 51 ∧
    (calculateScrollSegments sampleElement1000).getLast? =
      some { x := 0, y := 400, isComplete := false } := by
  rw [calculateScrollSegments]
  norm_num [sampleElement1000]
  repeat rw [scrollSegsAux_succ_pushed]
  norm_num [pushedPos]

/-- C2 counterexample: on totalHeight 1000 / visibleHeight 10 the planner
returns 51 offsets — more than the claimed cap of 50 — and the last emitted
offset is not marked final. -/
theorem C2_counterexample :
    (calculateScrollSegments sampleElement1000).length = 51 ∧
    ¬ ((calculateScrollSegments sampleElement1000).length ≤ 50) ∧
    (calculateScrollSegments sampleElement1000).getLast? =
      some { x := 0, y := 400, isComplete := false } ∧
    (∀ p, (calculateScrollSegments sampleElement1000).getLast? = some p →
      p.isComplete = false) := by
  obtain ⟨hlen, hlast⟩ := calcScrollSegments_1000_eval
  refine ⟨hlen, by omega, hlast, ?_⟩
  intro p hp
  rw [hlast] at hp
  cases hp
  rfl

/-- C2 (amended): the planner returns at most 51 offsets (the source checks
`segments.length > 50` only after pushing, so the cap admits one extra
offset); when the cap fires it stops early and the last emitted offset is
left unmarked — on totalHeight 1000 / visibleHeight 10 it returns exactly
51 offsets whose last is `y = 400`, not final. -/
theorem C2_cap_amended :
    (∀ e : ElementInfo, (calculateScrollSegments e).length ≤ 51) ∧
    (calculateScrollSegments sampleElement1000).length = 51 ∧
    (calculateScrollSegments sampleElement1000).getLast? =
      some { x := 0, y := 400, isComplete := false } := by
  refine ⟨?_, calcScrollSegments_1000_eval.1, calcScrollSegments_1000_eval.2⟩
  intro e
  rw [calculateScrollSegments]
  by_cases h : ¬ e.isScrollable ∨ e.totalHeight ≤ e.visibleHeight
  · rw [if_pos h]
    norm_num
  · rw [if_neg h]
    exact scrollSegsAux_length _ _ 52 0 [] (by norm_num)

end TheoremsPlannerCap

section TheoremsShadowWitness

open ChromeShot ChromeShot.ContentScript

/-- C8 witness: the amended shadow theorem applied to the concrete shadow
`offset (3,4), blur 1, spread 2` (extent `max(3,4)+1+2 = 7`), whose blur and
spread are non-negative so the code's extent agrees with the spec formula. -/
theorem C8_shadow_expansion_amended_witness :
    (0 : ℚ) ≤ (1 : ℚ) ∧ (0 : ℚ) ≤ (2 : ℚ) ∧
    parseShadowExtent [{ offsetX := 3, offsetY := 4, blurRadius := 1, spreadRadius := 2 }] =
      specShadowExtentSingle
        { offsetX := 3, offsetY := 4, blurRadius := 1, spreadRadius := 2 } :=
  ⟨by norm_num, by norm_num,
    (C8_shadow_expansion_amended.2.2.2.1
      { offsetX := 3, offsetY := 4, blurRadius := 1, spreadRadius := 2 }
      (by norm_num) (by norm_num))⟩

end TheoremsShadowWitness

section TheoremsStitch

open ChromeShot ChromeShot.ScreenshotProcessor

/-- Each stitching iteration advances `currentY` by exactly the destination
height of the draw it issues. -/
theorem segmentDraw_snd (ew dpr : ℚ) (seg : LongScreenshotSegment)
    (prev : Option LongScreenshotSegment) (y : ℚ) :
    (segmentDraw ew dpr seg prev y).2 = y + (segmentDraw ew dpr seg prev y).1.dstH := by
  cases prev <;> simp [segmentDraw]

/-- Each stitching iteration draws at the current `currentY`. -/
theorem segmentDraw_dstY (ew dpr : ℚ) (seg : LongScreenshotSegment)
    (prev : Option LongScreenshotSegment) (y : ℚ) :
    (segmentDraw ew dpr seg prev y).1.dstY = y := by
  cases prev <;> simp [segmentDraw]

/-- The stitching loop writes its draws back to back from the starting
offset, and its final offset is the start plus the sum of the drawn
destination heights. -/
theorem stitchLoopGo_spec (ew dpr : ℚ) :
    ∀ (rest : List LongScreenshotSegment) (prev : Option LongScreenshotSegment) (y : ℚ),
      (stitchLoopGo ew dpr prev rest y).2 =
        y + (((stitchLoopGo ew dpr prev rest y).1.map (fun d => d.dstH)).sum) ∧
      stackedFrom y (stitchLoopGo ew dpr prev rest y).1 := by
  intro rest
  induction rest with
  | nil => intro prev y; simp [stitchLoopGo, stackedFrom]
  | cons seg rest ih =>
    intro prev y
    obtain ⟨ihsum, ihstack⟩ := ih (some seg) (segmentDraw ew dpr seg prev y).2
    constructor
    · simp only [stitchLoopGo, List.map_cons, List.sum_cons]
      rw [ihsum, segmentDraw_snd]
      ring
    · simp only [stitchLoopGo, stackedFrom]
      refine ⟨segmentDraw_dstY ew dpr seg prev y, ?_⟩
      rw [← segmentDraw_snd]
      exact ihstack

/-- C4 (amended): stitching `n ≥ 2` segments allocates the output canvas at
exactly `boundingRect.width × totalHeight` scaled by the device pixel
ratio — the raster height equals (hence never exceeds)
`totalHeight × devicePixelRatio` regardless of the segments; the draws are
stacked from offset 0, so the painted vertical extent (the final write
offset) equals the sum of the segments' contributed overlap-adjusted
heights, which is in general different from the canvas height. -/
theorem C4_stitch_dimensions_amended (s1 s2 : LongScreenshotSegment)
    (rest : List LongScreenshotSegment) (e : ElementInfo) (dpr : ℚ) :
    ∃ r : CanvasResult,
      stitchScreenshotSegments (s1 :: s2 :: rest) e dpr = Except.ok r ∧
      r.width = e.boundingRect.width * dpr ∧
      r.height = e.totalHeight * dpr ∧
      stackedFrom 0 r.draws ∧
      (stitchLoopGo (e.boundingRect.width * dpr) dpr none (s1 :: s2 :: rest) 0).2 =
        (r.draws.map (fun d => d.dstH)).sum := by
  refine ⟨_, rfl, rfl, rfl, ?_, ?_⟩
  · exact (stitchLoopGo_spec _ dpr (s1 :: s2 :: rest) none 0).2
  · rw [(stitchLoopGo_spec _ dpr (s1 :: s2 :: rest) none 0).1]
    ring

end TheoremsStitch

section TheoremsStitchClaims

open ChromeShot ChromeShot.ScreenshotProcessor

/-- C4 counterexample: stitching two 10×50 segments (scroll 0 and 40) of an
element with totalHeight 200 at dpr 1 paints contributed heights 50 and 40
— their sum is 90 — but the output raster height is the allocated
`totalHeight × dpr = 200`, not that sum. -/
theorem C4_counterexample :
    stitchScreenshotSegments [stitchSegA, stitchSegB] sampleStitchElement 1 =
      Except.ok
        { width := 10, height := 200
          draws :=
            [{ srcX := 0, srcY := 0, srcW := 10, srcH := 50
               dstX := 0, dstY := 0, dstW := 10, dstH := 50, ctxTransform := none },
             { srcX := 0, srcY := 10, srcW := 10, srcH := 40
               dstX := 0, dstY := 50, dstW := 10, dstH := 40, ctxTransform := none }] } ∧
    ((50 : ℚ) + 40 = 90) ∧ ((200 : ℚ) ≠ 90) := by
  refine ⟨?_, by norm_num, by norm_num⟩
  simp only [stitchScreenshotSegments, stitchLoopGo, segmentDraw, adjustCropArea,
    calculateOverlapHeight, stitchSegA, stitchSegB, sampleStitchElement, mkRect]
  norm_num [min_def, max_def]

/-- C3 counterexample: when the scroll failed to advance (`stuckSeg` has the
same scroll y as `stitchSegA`) the overlap equals the full segment height
(100), but because the segment's crop was clamped to the 50-pixel raster,
the source computes a contributed height of −50, not 0: the write offset
moves backward from 50 to 0 instead of staying put. -/
theorem C3_counterexample :
    calculateOverlapHeight stuckSeg stitchSegA 1 = 100 ∧
    stuckSeg.elementRect.height * 1 = 100 ∧
    stitchScreenshotSegments [stitchSegA, stuckSeg] sampleStitchElement 1 =
      Except.ok
        { width := 10, height := 200
          draws :=
            [{ srcX := 0, srcY := 0, srcW := 10, srcH := 50
               dstX := 0, dstY := 0, dstW := 10, dstH := 50, ctxTransform := none },
             { srcX := 0, srcY := 100, srcW := 10, srcH := -50
               dstX := 0, dstY := 50, dstW := 10, dstH := -50, ctxTransform := none }] } ∧
    ((-50 : ℚ) ≠ 0) ∧ ((50 : ℚ) + (-50) < 50) := by
  refine ⟨?_, ?_, ?_, by norm_num, by norm_num⟩
  · simp only [calculateOverlapHeight, stuckSeg, stitchSegA, mkRect]
    norm_num [max_def]
  · simp only [stuckSeg, mkRect]
    norm_num
  · simp only [stitchScreenshotSegments, stitchLoopGo, segmentDraw, adjustCropArea,
      calculateOverlapHeight, stitchSegA, stuckSeg, sampleStitchElement, mkRect]
    norm_num [min_def, max_def]

/-- C3 (amended): the computed overlap is always ≥ 0 (for dpr ≥ 0); a
segment's contributed height is `adjustedCropHeight − overlapHeight`, which
is exactly 0 — write offset unchanged — precisely when the overlap equals
the bounds-clamped crop height (in particular an unclamped full-height
overlap), while a crop clamped below the overlap yields a negative
contribution that moves the write offset backward; in no case does the
stitcher throw on a non-empty segment list. -/
theorem C3_overlap_amended :
    (∀ (cur prev : LongScreenshotSegment) (dpr : ℚ), 0 ≤ dpr →
      0 ≤ calculateOverlapHeight cur prev dpr) ∧
    (∀ (ew dpr y : ℚ) (seg prev : LongScreenshotSegment),
      calculateOverlapHeight seg prev dpr =
        (adjustCropArea
          { x := seg.elementRect.left * dpr, y := seg.elementRect.top * dpr
            width := ew, height := seg.elementRect.height * dpr }
          seg.dataUrl.width seg.dataUrl.height).height →
      (segmentDraw ew dpr seg (some prev) y).1.dstH = 0 ∧
      (segmentDraw ew dpr seg (some prev) y).2 = y) ∧
    (∀ (segments : List LongScreenshotSegment) (e : ElementInfo) (dpr : ℚ),
      segments ≠ [] →
      ∃ r, stitchScreenshotSegments segments e dpr = Except.ok r) := by
  refine ⟨?_, ?_, ?_⟩
  · intro cur prev dpr hdpr
    simp only [calculateOverlapHeight]
    exact mul_nonneg (le_max_left 0 _) hdpr
  · intro ew dpr y seg prev h
    constructor
    · simp only [segmentDraw]
      rw [h]
      ring
    · simp only [segmentDraw]
      rw [h]
      ring
  · intro segments e dpr hne
    match segments with
    | [] => exact absurd rfl hne
    | [s] => exact ⟨_, rfl⟩
    | s1 :: s2 :: rest => exact ⟨_, rfl⟩

/-- C3 witness: two identical segments (scroll did not advance, raster tall
enough that the crop is unclamped): the overlap equals the crop height and
the contributed height is 0, leaving the write offset at 7. -/
theorem C3_overlap_amended_witness :
    (0 : ℚ) ≤ 1 ∧ 0 ≤ calculateOverlapHeight stitchSegA stitchSegA 1 ∧
    calculateOverlapHeight stitchSegA stitchSegA 1 =
      (adjustCropArea
        { x := stitchSegA.elementRect.left * 1, y := stitchSegA.elementRect.top * 1
          width := 10, height := stitchSegA.elementRect.height * 1 }
        stitchSegA.dataUrl.width stitchSegA.dataUrl.height).height ∧
    (segmentDraw 10 1 stitchSegA (some stitchSegA) 7).1.dstH = 0 ∧
    (segmentDraw 10 1 stitchSegA (some stitchSegA) 7).2 = 7 := by
  have h : calculateOverlapHeight stitchSegA stitchSegA 1 =
      (adjustCropArea
        { x := stitchSegA.elementRect.left * 1, y := stitchSegA.elementRect.top * 1
          width := 10, height := stitchSegA.elementRect.height * 1 }
        stitchSegA.dataUrl.width stitchSegA.dataUrl.height).height := by
    simp only [calculateOverlapHeight, adjustCropArea, stitchSegA, mkRect]
    norm_num [min_def, max_def]
  exact ⟨by norm_num, C3_overlap_amended.1 stitchSegA stitchSegA 1 (by norm_num), h,
    (C3_overlap_amended.2.1 10 1 7 stitchSegA stitchSegA h).1,
    (C3_overlap_amended.2.1 10 1 7 stitchSegA stitchSegA h).2⟩

end TheoremsStitchClaims

section TheoremsCapture

open ChromeShot ChromeShot.ScreenshotProcessor

/-- A successful run of the capture loop produced one segment per pending
planned offset. -/
theorem captureLoop_ok_length (env : CaptureEnv) :
    ∀ (pending : List (ℕ × ScrollPosition)) (acts : List PageAction)
      (segs : List LongScreenshotSegment) (actsOut : List PageAction)
      (segsOut : List LongScreenshotSegment),
      captureLoop env pending acts segs = (actsOut, Except.ok segsOut) →
      segsOut.length = segs.length + pending.length := by
  intro pending
  induction pending with
  | nil =>
    intro acts segs actsOut segsOut h
    simp only [captureLoop, Prod.mk.injEq, Except.ok.injEq] at h
    rw [← h.2]
    simp
  | cons p rest ih =>
    intro acts segs actsOut segsOut h
    obtain ⟨i, pos⟩ := p
    simp only [captureLoop] at h
    cases hc : env.capture i with
    | error m =>
      rw [hc] at h
      simp at h
    | ok img =>
      rw [hc] at h
      cases hm : env.measure i with
      | error m =>
        rw [hm] at h
        simp at h
      | ok rect =>
        rw [hm] at h
        have hlen := ih _ _ _ _ h
        simp at hlen ⊢
        omega

/-- C5 (amended): when the orchestration returns successfully its action
trace ends with a scroll reset — so the target's scroll position is 0
whatever it was before — and the returned segments cover every planned
offset with the element's total height attached; on failure the error
propagates immediately (the source has no `finally`), carrying no partial
segments, and the scroll is NOT reset. -/
theorem C5_cleanup_amended (env : CaptureEnv) (e : ElementInfo)
    (acts : List PageAction) (segs : List LongScreenshotSegment) (th : ℚ)
    (h : captureLongScreenshot env e = (acts, Except.ok (segs, th))) :
    acts.getLast? = some PageAction.resetScroll ∧
    (∀ y₀ : ℚ, finalScrollY y₀ acts = 0) ∧
    segs.length = (calculateScrollSegments e).length ∧
    th = e.totalHeight := by
  rcases hloop : captureLoop env (calculateScrollSegments e).enum
    [PageAction.resetScroll] [] with ⟨acts0, res0⟩
  simp only [captureLongScreenshot] at h
  rw [hloop] at h
  cases res0 with
  | error m => simp at h
  | ok segs0 =>
    simp only [Prod.mk.injEq, Except.ok.injEq] at h
    obtain ⟨hacts, hsegs, hth⟩ := h
    have hlen := captureLoop_ok_length env _ _ _ _ _ hloop
    subst hacts
    refine ⟨?_, ?_, ?_, hth.symm⟩
    · rw [List.getLast?_concat]
    · intro y₀
      simp [finalScrollY, List.foldl_append]
    · rw [← hsegs, hlen]
      simp [List.enum_length]

end TheoremsCapture

section TheoremsCaptureConcrete

open ChromeShot ChromeShot.ScreenshotProcessor

/-- C5 counterexample: when capturing segment 1 fails, the orchestration
throws with a trace that performs no trailing scroll reset — the target is
left scrolled to 480, not restored to 0 (the source `catch` only rewraps
and rethrows; there is no `finally`). -/
theorem C5_counterexample :
    captureLongScreenshot sampleEnvFail sampleElement2400 =
      ([PageAction.resetScroll, PageAction.scrollTo 0, PageAction.captureScreen 0,
        PageAction.measureElement 0, PageAction.scrollTo 480, PageAction.captureScreen 1],
       Except.error "Long screenshot capture failed: capture failed") ∧
    finalScrollY 0
      [PageAction.resetScroll, PageAction.scrollTo 0, PageAction.captureScreen 0,
       PageAction.measureElement 0, PageAction.scrollTo 480, PageAction.captureScreen 1] = 480 ∧
    ((480 : ℚ) ≠ 0) ∧
    (captureLongScreenshot sampleEnvFail sampleElement2400).1.getLast? ≠
      some PageAction.resetScroll := by
  have heval : captureLongScreenshot sampleEnvFail sampleElement2400 =
      ([PageAction.resetScroll, PageAction.scrollTo 0, PageAction.captureScreen 0,
        PageAction.measureElement 0, PageAction.scrollTo 480, PageAction.captureScreen 1],
       Except.error "Long screenshot capture failed: capture failed") := by
    simp only [captureLongScreenshot]
    rw [calcScrollSegments_2400_eval]
    simp [captureLoop, sampleEnvFail, List.enum, List.enumFrom]
  refine ⟨heval, ?_, by norm_num, ?_⟩
  · simp [finalScrollY]
  · rw [heval]
    simp

/-- C5 witness: with an environment whose external calls all succeed, the
run on the 2400/600 geometry returns all four planned segments, its trace
ends with a scroll reset, and the final scroll position is 0 from any
starting position (here 5). -/
theorem C5_cleanup_amended_witness :
    captureLongScreenshot sampleEnvOk sampleElement2400 =
      ([PageAction.resetScroll,
        PageAction.scrollTo 0, PageAction.captureScreen 0, PageAction.measureElement 0,
        PageAction.scrollTo 480, PageAction.captureScreen 1, PageAction.measureElement 1,
        PageAction.scrollTo 960, PageAction.captureScreen 2, PageAction.measureElement 2,
        PageAction.scrollTo 1440, PageAction.captureScreen 3, PageAction.measureElement 3,
        PageAction.resetScroll],
       Except.ok
         ([{ dataUrl := { width := 800, height := 600 }
             scrollPosition := { x := 0, y := 0, isComplete := false }
             segmentIndex := 0, elementRect := mkRect 0 0 800 600 },
           { dataUrl := { width := 800, height := 600 }
             scrollPosition := { x := 0, y := 480, isComplete := false }
             segmentIndex := 1, elementRect := mkRect 0 0 800 600 },
           { dataUrl := { width := 800, height := 600 }
             scrollPosition := { x := 0, y := 960, isComplete := false }
             segmentIndex := 2, elementRect := mkRect 0 0 800 600 },
           { dataUrl := { width := 800, height := 600 }
             scrollPosition := { x := 0, y := 1440, isComplete := false }
             segmentIndex := 3, elementRect := mkRect 0 0 800 600 }], 2400)) ∧
    ([PageAction.resetScroll,
      PageAction.scrollTo 0, PageAction.captureScreen 0, PageAction.measureElement 0,
      PageAction.scrollTo 480, PageAction.captureScreen 1, PageAction.measureElement 1,
      PageAction.scrollTo 960, PageAction.captureScreen 2, PageAction.measureElement 2,
      PageAction.scrollTo 1440, PageAction.captureScreen 3, PageAction.measureElement 3,
      PageAction.resetScroll] : List PageAction).getLast? =
      some PageAction.resetScroll ∧
    finalScrollY 5
      [PageAction.resetScroll,
       PageAction.scrollTo 0, PageAction.captureScreen 0, PageAction.measureElement 0,
       PageAction.scrollTo 480, PageAction.captureScreen 1, PageAction.measureElement 1,
       PageAction.scrollTo 960, PageAction.captureScreen 2, PageAction.measureElement 2,
       PageAction.scrollTo 1440, PageAction.captureScreen 3, PageAction.measureElement 3,
       PageAction.resetScroll] = 0 := by
  have heval : captureLongScreenshot sampleEnvOk sampleElement2400 =
      ([PageAction.resetScroll,
        PageAction.scrollTo 0, PageAction.captureScreen 0, PageAction.measureElement 0,
        PageAction.scrollTo 480, PageAction.captureScreen 1, PageAction.measureElement 1,
        PageAction.scrollTo 960, PageAction.captureScreen 2, PageAction.measureElement 2,
        PageAction.scrollTo 1440, PageAction.captureScreen 3, PageAction.measureElement 3,
        PageAction.resetScroll],
       Except.ok
         ([{ dataUrl := { width := 800, height := 600 }
             scrollPosition := { x := 0, y := 0, isComplete := false }
             segmentIndex := 0, elementRect := mkRect 0 0 800 600 },
           { dataUrl := { width := 800, height := 600 }
             scrollPosition := { x := 0, y := 480, isComplete := false }
             segmentIndex := 1, elementRect := mkRect 0 0 800 600 },
           { dataUrl := { width := 800, height := 600 }
             scrollPosition := { x := 0, y := 960, isComplete := false }
             segmentIndex := 2, elementRect := mkRect 0 0 800 600 },
           { dataUrl := { width := 800, height := 600 }
             scrollPosition := { x := 0, y := 1440, isComplete := false }
             segmentIndex := 3, elementRect := mkRect 0 0 800 600 }], 2400)) := by
    simp only [captureLongScreenshot]
    rw [calcScrollSegments_2400_eval]
    simp [captureLoop, sampleEnvOk, List.enum, List.enumFrom]
    norm_num [sampleElement2400]
  exact ⟨heval, (C5_cleanup_amended sampleEnvOk sampleElement2400 _ _ _ heval).1,
    (C5_cleanup_amended sampleEnvOk sampleElement2400 _ _ _ heval).2.1 5⟩

end TheoremsCaptureConcrete

section TheoremsRetry

open ChromeShot ChromeShot.ErrorHandler

/-- One-step unfolding of the retry loop. -/
theorem handleErrorLoop_succ {α : Type} (config : RetryConfig)
    (operation : ℕ → Except String α) (fuel attempt : ℕ) (delays : List ℚ)
    (lastError : Option String) :
    handleErrorLoop config operation (fuel + 1) attempt delays lastError =
      match operation (attempt + 1) with
      | .ok result =>
        { result := some result, lastError := lastError, delays := delays
          attemptsMade := attempt + 1 }
      | .error msg =>
        if ¬ (createErrorInfo (classifyError msg) none).retryable ∨
            config.maxAttempts ≤ attempt + 1 then
          { result := none, lastError := some msg, delays := delays
            attemptsMade := attempt + 1 }
        else
          handleErrorLoop config operation fuel (attempt + 1)
            (delays ++ [config.delayMs * config.backoffMultiplier ^ (attempt + 1 - 1)])
            (some msg) := rfl

/-- The delays recorded by the retry loop starting at attempt `attempt` are
consecutive backoff terms `delayMs · multiplier^i`, `i = attempt, …`. -/
theorem handleErrorLoop_delays {α : Type} (config : RetryConfig)
    (operation : ℕ → Except String α) :
    ∀ (fuel attempt : ℕ) (delays : List ℚ) (lastError : Option String),
      ∃ k, (handleErrorLoop config operation fuel attempt delays lastError).delays =
        delays ++ (List.range' attempt k).map
          (fun i => config.delayMs * config.backoffMultiplier ^ i) := by
  intro fuel
  induction fuel with
  | zero =>
    intro attempt delays lastError
    exact ⟨0, by simp [handleErrorLoop]⟩
  | succ n ih =>
    intro attempt delays lastError
    rw [handleErrorLoop_succ]
    cases hop : operation (attempt + 1) with
    | ok v => exact ⟨0, by simp⟩
    | error msg =>
      dsimp only
      by_cases hbreak : ¬ (createErrorInfo (classifyError msg) none).retryable = true ∨
          config.maxAttempts ≤ attempt + 1
      · rw [if_pos hbreak]
        exact ⟨0, by simp⟩
      · rw [if_neg hbreak]
        obtain ⟨k, hk⟩ := ih (attempt + 1)
          (delays ++ [config.delayMs * config.backoffMultiplier ^ (attempt + 1 - 1)])
          (some msg)
        refine ⟨k + 1, ?_⟩
        rw [hk, List.range'_succ, List.map_cons, List.append_assoc]
        simp

/-- The trace returned by `handleError` is the trace of its retry loop. -/
theorem handleError_fst {α : Type} (config : RetryConfig)
    (operation : ℕ → Except String α) :
    (handleError config operation).1 =
      handleErrorLoop config operation config.maxAttempts 0 [] none := by
  simp only [handleError]
  split
  · rfl
  · split
    · split
      · rfl
      · rfl
    · rfl

/-- C7: every recorded backoff delay is `baseDelay × multiplier^(attempt−1)`
(the i-th recorded delay, following failed attempt i+1, is
`delayMs · multiplier^i`); and with the default config (maxAttempts 3,
delay 1000, multiplier 2), an operation failing twice with a
capture-classified error and resolving on the third call is retried exactly
twice — three attempts, delays [1000, 2000] — with `handleError` returning
the third call's value. -/
theorem C7_retry_backoff :
    (∀ (α : Type) (config : RetryConfig) (operation : ℕ → Except String α),
      ∃ k, (handleError config operation).1.delays =
        (List.range k).map
          (fun i => config.delayMs * config.backoffMultiplier ^ i)) ∧
    (handleError DEFAULT_RETRY_CONFIG sampleRetryOps).2 = Except.ok 42 ∧
    (handleError DEFAULT_RETRY_CONFIG sampleRetryOps).1.attemptsMade = 3 ∧
    (handleError DEFAULT_RETRY_CONFIG sampleRetryOps).1.delays = [1000, 2000] := by
  have hconc : handleError DEFAULT_RETRY_CONFIG sampleRetryOps =
      ({ result := some 42, lastError := some "capture failed"
         delays := [1000, 2000], attemptsMade := 3 }, Except.ok 42) := by
    have h1 : (createErrorInfo (classifyError "capture failed") none).retryable = true := by
      decide
    simp only [handleError, DEFAULT_RETRY_CONFIG]
    repeat (rw [handleErrorLoop_succ]; norm_num [sampleRetryOps, h1])
  refine ⟨?_, by rw [hconc], by rw [hconc], by rw [hconc]⟩
  intro α config operation
  obtain ⟨k, hk⟩ := handleErrorLoop_delays config operation config.maxAttempts 0 [] none
  refine ⟨k, ?_⟩
  rw [handleError_fst, hk]
  simp [List.range_eq_range']

end TheoremsRetry
